import Mathlib

/-!
Verification development for the openwillis repository.

The GPS trajectory module (`openwillis/measures/gps/util/gps_util.py`) is
embedded over `ℚ` (one `TrajRow` per numpy row, columns 0..7 of the
trajectory array as named fields).  The external forest-library helpers
(`stamp2datetime`, `datetime2stamp`, `locate_home`) are taken as function
parameters of the embedding, since they are third-party code whose only role
here is to convert between timestamps and broken-down local time.

The audio and text modules are embedded with their external service calls
(`transcribe_audio`, the HuggingFace inference pipeline) as parameters as
well; the data-shaping logic of this repository is translated literally.
-/

namespace OpenWillis

/-- Row of the trajectory array produced by the forest mobility library.
Field `flag` is column 0, `x0 y0` are columns 1-2 (start coordinates),
`t0` is column 3 (start timestamp), `x1 y1` are columns 4-5 (end
coordinates), `t1` is column 6 (end timestamp), `obs` is column 7
(observed/missing indicator). -/
structure TrajRow where
  flag : ℚ
  x0 : ℚ
  y0 : ℚ
  t0 : ℚ
  x1 : ℚ
  y1 : ℚ
  t1 : ℚ
  obs : ℚ
deriving DecidableEq, Repr

instance : Inhabited TrajRow := ⟨⟨0, 0, 0, 0, 0, 0, 0, 0⟩⟩

/-- Read row `i` of a trajectory (numpy `traj[i]`; out-of-range reads return
the default row, which no theorem below relies on). -/
def nthRow : List TrajRow → ℕ → TrajRow
  | [], _ => default
  | r :: _, 0 => r
  | _ :: rs, i + 1 => nthRow rs i

/-- In-place update of row `i` (numpy `traj[i, c] = v`); out of range is a
no-op, which no code path below reaches. -/
def updRow : List TrajRow → ℕ → (TrajRow → TrajRow) → List TrajRow
  | [], _, _ => []
  | r :: rs, 0, f => f r :: rs
  | r :: rs, i + 1, f => r :: updRow rs i f

/-- Number of `True` entries of a boolean mask (Python `sum(index_rows)`). -/
def trueCount : List Bool → ℕ
  | [] => 0
  | b :: bs => (if b then 1 else 0) + trueCount bs

/-- Boolean-mask row selection, `traj[index_rows, :]` (numpy advanced
indexing; the selected rows form a fresh array). -/
def maskSelect : List TrajRow → List Bool → List TrajRow
  | [], _ => []
  | _, [] => []
  | r :: rs, b :: bs => if b then r :: maskSelect rs bs else maskSelect rs bs

/-- Coordinate of the linear interpolation of a segment's original start and
end x-coordinates, evaluated at time `t` along the segment's time span. -/
def lerpX (r : TrajRow) (t : ℚ) : ℚ :=
  (1 - (t - r.t0) / (r.t1 - r.t0)) * r.x0 + (t - r.t0) / (r.t1 - r.t0) * r.x1

/-- Coordinate of the linear interpolation of a segment's original start and
end y-coordinates, evaluated at time `t` along the segment's time span. -/
def lerpY (r : TrajRow) (t : ℚ) : ℚ :=
  (1 - (t - r.t0) / (r.t1 - r.t0)) * r.y0 + (t - r.t0) / (r.t1 - r.t0) * r.y1

/-- Translation of `traj_smooth_ends` (gps_util.py lines 222-275).  The
sequence of `let` bindings mirrors the order of reads and writes of the
source exactly: in the single-row branch the original coordinates are saved
before any write, in the multi-row branch the two interpolation fractions
are computed before any write.  On an empty selection the source would
raise `IndexError`; every caller guards `sum(index_rows) == 0` first, and
the theorems below assume a non-empty selection. -/
def traj_smooth_ends (traj : List TrajRow) (start_time end_time : ℚ)
    (index_rows : List Bool) : List TrajRow :=
  let current_traj := maskSelect traj index_rows
  if trueCount index_rows = 1 then
    let r := nthRow current_traj 0
    let p0 := (start_time - r.t0) / (r.t1 - r.t0)
    let p1 := (end_time - r.t0) / (r.t1 - r.t0)
    let x0 := r.x0
    let y0 := r.y0
    let x1 := r.x1
    let y1 := r.y1
    let c1 := updRow current_traj 0 (fun s => { s with x0 := (1 - p0) * x0 + p0 * x1 })
    let c2 := updRow c1 0 (fun s => { s with y0 := (1 - p0) * y0 + p0 * y1 })
    let c3 := updRow c2 0 (fun s => { s with t0 := start_time })
    let c4 := updRow c3 0 (fun s => { s with x1 := (1 - p1) * x0 + p1 * x1 })
    let c5 := updRow c4 0 (fun s => { s with y1 := (1 - p1) * y0 + p1 * y1 })
    updRow c5 0 (fun s => { s with t1 := end_time })
  else
    let rf := nthRow current_traj 0
    let rl := nthRow current_traj (current_traj.length - 1)
    let lastIdx := current_traj.length - 1
    let p0 := (rf.t1 - start_time) / (rf.t1 - rf.t0)
    let p1 := (end_time - rl.t0) / (rl.t1 - rl.t0)
    let c1 := updRow current_traj 0 (fun s => { s with x0 := (1 - p0) * s.x1 + p0 * s.x0 })
    let c2 := updRow c1 0 (fun s => { s with y0 := (1 - p0) * s.y1 + p0 * s.y0 })
    let c3 := updRow c2 0 (fun s => { s with t0 := start_time })
    let c4 := updRow c3 lastIdx (fun s => { s with x1 := (1 - p1) * s.x0 + p1 * s.x1 })
    let c5 := updRow c4 lastIdx (fun s => { s with y1 := (1 - p1) * s.y0 + p1 * s.y1 })
    updRow c5 lastIdx (fun s => { s with t1 := end_time })

lemma length_updRow (l : List TrajRow) (i : ℕ) (f : TrajRow → TrajRow) :
    (updRow l i f).length = l.length := by
  induction l generalizing i with
  | nil => rfl
  | cons r rs ih =>
    cases i with
    | zero => rfl
    | succ j => simp [updRow, ih]

lemma nthRow_updRow_eq (l : List TrajRow) (i : ℕ) (f : TrajRow → TrajRow)
    (h : i < l.length) : nthRow (updRow l i f) i = f (nthRow l i) := by
  induction l generalizing i with
  | nil => simp at h
  | cons r rs ih =>
    cases i with
    | zero => rfl
    | succ j =>
      simp only [List.length_cons, Nat.succ_lt_succ_iff] at h
      simpa [updRow, nthRow] using ih j h

lemma nthRow_updRow_ne (l : List TrajRow) (i j : ℕ) (f : TrajRow → TrajRow)
    (h : i ≠ j) : nthRow (updRow l i f) j = nthRow l j := by
  induction l generalizing i j with
  | nil => rfl
  | cons r rs ih =>
    cases i with
    | zero =>
      cases j with
      | zero => exact absurd rfl h
      | succ k => rfl
    | succ i2 =>
      cases j with
      | zero => rfl
      | succ k =>
        simpa [updRow, nthRow] using ih i2 k (by omega)

lemma maskSelect_length (traj : List TrajRow) (mask : List Bool)
    (h : mask.length = traj.length) :
    (maskSelect traj mask).length = trueCount mask := by
  induction traj generalizing mask with
  | nil =>
    cases mask with
    | nil => rfl
    | cons b bs => simp at h
  | cons r rs ih =>
    cases mask with
    | nil => simp at h
    | cons b bs =>
      simp only [List.length_cons, Nat.succ_inj] at h
      cases b with
      | false => simpa [maskSelect, trueCount] using ih bs h
      | true =>
        have := ih bs h
        simp [maskSelect, trueCount, this]
        omega

lemma maskSelect_ne_nil_length (sel : List TrajRow) (h : sel ≠ []) :
    0 < sel.length := by
  cases sel with
  | nil => exact absurd rfl h
  | cons a l => simp

/-- Claim C2: for every window `[start_time, end_time]` and every non-empty
boolean selection of segments overlapping it, `traj_smooth_ends` returns a
sub-trajectory whose first row starts at `start_time` (column 3) and whose
last row ends at `end_time` (column 6), with the boundary coordinates
replaced by the linear interpolation of the corresponding segment's original
start and end coordinates evaluated at those boundary times, in both the
single-segment and the multi-segment case.  The hypothesis `hden` states
that the first selected segment has a non-degenerate time span, so that the
interpolation fraction of the source is well defined. -/
theorem traj_smooth_ends_aligns_window (traj : List TrajRow)
    (start_time end_time : ℚ) (mask : List Bool)
    (hlen : mask.length = traj.length)
    (hne : maskSelect traj mask ≠ [])
    (hden : (nthRow (maskSelect traj mask) 0).t1 ≠ (nthRow (maskSelect traj mask) 0).t0) :
    (nthRow (traj_smooth_ends traj start_time end_time mask) 0).t0 = start_time ∧
    (nthRow (traj_smooth_ends traj start_time end_time mask)
      ((traj_smooth_ends traj start_time end_time mask).length - 1)).t1 = end_time ∧
    (nthRow (traj_smooth_ends traj start_time end_time mask) 0).x0 =
      lerpX (nthRow (maskSelect traj mask) 0) start_time ∧
    (nthRow (traj_smooth_ends traj start_time end_time mask) 0).y0 =
      lerpY (nthRow (maskSelect traj mask) 0) start_time ∧
    (nthRow (traj_smooth_ends traj start_time end_time mask)
      ((traj_smooth_ends traj start_time end_time mask).length - 1)).x1 =
      lerpX (nthRow (maskSelect traj mask) ((maskSelect traj mask).length - 1)) end_time ∧
    (nthRow (traj_smooth_ends traj start_time end_time mask)
      ((traj_smooth_ends traj start_time end_time mask).length - 1)).y1 =
      lerpY (nthRow (maskSelect traj mask) ((maskSelect traj mask).length - 1)) end_time := by
  have hcount : (maskSelect traj mask).length = trueCount mask :=
    maskSelect_length traj mask hlen
  have hpos : 0 < (maskSelect traj mask).length := maskSelect_ne_nil_length _ hne
  by_cases h1 : trueCount mask = 1
  · -- single-segment case
    have hsel1 : (maskSelect traj mask).length = 1 := by rw [hcount, h1]
    obtain ⟨a, ha⟩ := List.length_eq_one.mp hsel1
    have hsub : a.t1 - a.t0 ≠ 0 := by
      rw [ha] at hden
      exact sub_ne_zero_of_ne (by simpa [nthRow] using hden)
    simp only [traj_smooth_ends, ha, if_pos h1, updRow, nthRow, List.length_cons,
      List.length_nil]
    refine ⟨trivial, trivial, ?_, ?_, ?_, ?_⟩ <;> · simp [lerpX, lerpY, ha, nthRow]
  · -- multi-segment case
    have hsel2 : 2 ≤ (maskSelect traj mask).length := by omega
    set sel := maskSelect traj mask with hself
    set L := sel.length - 1 with hL
    have hLpos : 0 < L := by omega
    have hLlt : L < sel.length := by omega
    have h0lt : 0 < sel.length := hpos
    have hsub : (nthRow sel 0).t1 - (nthRow sel 0).t0 ≠ 0 := sub_ne_zero_of_ne hden
    simp only [traj_smooth_ends, if_neg h1, ← hself]
    have hne0L : (0 : ℕ) ≠ L := by omega
    have hneL0 : L ≠ 0 := by omega
    -- lengths are preserved along the update chain
    simp only [length_updRow, ← hL]
    constructor
    · rw [nthRow_updRow_ne _ L 0 _ hneL0, nthRow_updRow_ne _ L 0 _ hneL0,
        nthRow_updRow_ne _ L 0 _ hneL0,
        nthRow_updRow_eq _ 0 _ (by simpa [length_updRow] using h0lt),
        nthRow_updRow_eq _ 0 _ (by simpa [length_updRow] using h0lt),
        nthRow_updRow_eq _ 0 _ h0lt]
    constructor
    · rw [nthRow_updRow_eq _ L _ (by simpa [length_updRow] using hLlt)]
    constructor
    · rw [nthRow_updRow_ne _ L 0 _ hneL0, nthRow_updRow_ne _ L 0 _ hneL0,
        nthRow_updRow_ne _ L 0 _ hneL0,
        nthRow_updRow_eq _ 0 _ (by simpa [length_updRow] using h0lt),
        nthRow_updRow_eq _ 0 _ (by simpa [length_updRow] using h0lt),
        nthRow_updRow_eq _ 0 _ h0lt]
      simp only [lerpX]
      field_simp
      ring
    constructor
    · rw [nthRow_updRow_ne _ L 0 _ hneL0, nthRow_updRow_ne _ L 0 _ hneL0,
        nthRow_updRow_ne _ L 0 _ hneL0,
        nthRow_updRow_eq _ 0 _ (by simpa [length_updRow] using h0lt),
        nthRow_updRow_eq _ 0 _ (by simpa [length_updRow] using h0lt),
        nthRow_updRow_eq _ 0 _ h0lt]
      simp only [lerpY]
      field_simp
      ring
    constructor
    · rw [nthRow_updRow_eq _ L _ (by simpa [length_updRow] using hLlt),
        nthRow_updRow_eq _ L _ (by simpa [length_updRow] using hLlt),
        nthRow_updRow_eq _ L _ (by simpa [length_updRow] using hLlt),
        nthRow_updRow_ne _ 0 L _ hne0L, nthRow_updRow_ne _ 0 L _ hne0L,
        nthRow_updRow_ne _ 0 L _ hne0L]
      simp [lerpX]
    · rw [nthRow_updRow_eq _ L _ (by simpa [length_updRow] using hLlt),
        nthRow_updRow_eq _ L _ (by simpa [length_updRow] using hLlt),
        nthRow_updRow_eq _ L _ (by simpa [length_updRow] using hLlt),
        nthRow_updRow_ne _ 0 L _ hne0L, nthRow_updRow_ne _ 0 L _ hne0L,
        nthRow_updRow_ne _ 0 L _ hne0L]
      simp [lerpY]

/-- Witness for claim C2 at a concrete two-segment trajectory and the window
`[1, 3]`, discharging the hypotheses of `traj_smooth_ends_aligns_window`. -/
theorem traj_smooth_ends_aligns_window_witness :
    ([true, true] : List Bool).length =
      ([⟨0, 0, 0, 0, 2, 2, 2, 1⟩, ⟨0, 2, 2, 2, 4, 4, 4, 1⟩] : List TrajRow).length ∧
    (nthRow (traj_smooth_ends
      [⟨0, 0, 0, 0, 2, 2, 2, 1⟩, ⟨0, 2, 2, 2, 4, 4, 4, 1⟩] 1 3 [true, true]) 0).t0 = 1 :=
  ⟨by decide,
    (traj_smooth_ends_aligns_window
      [⟨0, 0, 0, 0, 2, 2, 2, 1⟩, ⟨0, 2, 2, 2, 4, 4, 4, 1⟩] 1 3 [true, true]
      (by decide) (by decide) (by decide)).1⟩

/-- Names of the two numpy arrays alive inside `traj_smooth_ends`: the `traj`
argument and the local `current_traj`. -/
inductive Arr where
  | traj : Arr
  | cur : Arr
deriving DecidableEq, Repr

/-- Heap of `traj_smooth_ends`: the contents of the two arrays. -/
structure NpState where
  traj : List TrajRow
  cur : List TrajRow
deriving Repr

/-- Read an array from the heap. -/
def readArr (s : NpState) : Arr → List TrajRow
  | Arr.traj => s.traj
  | Arr.cur => s.cur

/-- Write row `i` of the named array in place (`a[i, c] = v`). -/
def writeRow (s : NpState) (a : Arr) (i : ℕ) (f : TrajRow → TrajRow) : NpState :=
  match a with
  | Arr.traj => { s with traj := updRow s.traj i f }
  | Arr.cur => { s with cur := updRow s.cur i f }

/-- Effect of `current_traj = traj[index_rows, :]` (gps_util.py line 248):
numpy boolean-array indexing is advanced indexing and returns a fresh copy of
the selected rows, so `current_traj` holds a copy and shares no storage with
`traj`. -/
def np_mask_select (s : NpState) (mask : List Bool) : NpState :=
  { s with cur := maskSelect s.traj mask }

/-- Heap-level translation of `traj_smooth_ends`: the same reads and writes
as the source, with every write addressed to the array it targets.  All
writes of the source go to `current_traj`. -/
def traj_smooth_ends_st (s0 : NpState) (start_time end_time : ℚ)
    (index_rows : List Bool) : NpState :=
  let s := np_mask_select s0 index_rows
  if trueCount index_rows = 1 then
    let r := nthRow (readArr s Arr.cur) 0
    let p0 := (start_time - r.t0) / (r.t1 - r.t0)
    let p1 := (end_time - r.t0) / (r.t1 - r.t0)
    let x0 := r.x0
    let y0 := r.y0
    let x1 := r.x1
    let y1 := r.y1
    let s := writeRow s Arr.cur 0 (fun t => { t with x0 := (1 - p0) * x0 + p0 * x1 })
    let s := writeRow s Arr.cur 0 (fun t => { t with y0 := (1 - p0) * y0 + p0 * y1 })
    let s := writeRow s Arr.cur 0 (fun t => { t with t0 := start_time })
    let s := writeRow s Arr.cur 0 (fun t => { t with x1 := (1 - p1) * x0 + p1 * x1 })
    let s := writeRow s Arr.cur 0 (fun t => { t with y1 := (1 - p1) * y0 + p1 * y1 })
    writeRow s Arr.cur 0 (fun t => { t with t1 := end_time })
  else
    let rf := nthRow (readArr s Arr.cur) 0
    let rl := nthRow (readArr s Arr.cur) ((readArr s Arr.cur).length - 1)
    let lastIdx := (readArr s Arr.cur).length - 1
    let p0 := (rf.t1 - start_time) / (rf.t1 - rf.t0)
    let p1 := (end_time - rl.t0) / (rl.t1 - rl.t0)
    let s := writeRow s Arr.cur 0 (fun t => { t with x0 := (1 - p0) * t.x1 + p0 * t.x0 })
    let s := writeRow s Arr.cur 0 (fun t => { t with y0 := (1 - p0) * t.y1 + p0 * t.y0 })
    let s := writeRow s Arr.cur 0 (fun t => { t with t0 := start_time })
    let s := writeRow s Arr.cur lastIdx (fun t => { t with x1 := (1 - p1) * t.x0 + p1 * t.x1 })
    let s := writeRow s Arr.cur lastIdx (fun t => { t with y1 := (1 - p1) * t.y0 + p1 * t.y1 })
    writeRow s Arr.cur lastIdx (fun t => { t with t1 := end_time })

/-- Claim C9: `traj_smooth_ends` never modifies its input trajectory array —
every write of the source is addressed to `current_traj`, which holds a copy
produced by the boolean-mask selection, so after the call `traj` is exactly
its value before the call; moreover the copy ends up equal to the value
computed by the pure translation, so smoothing the sub-trajectory of one
window cannot alter the statistics of any other window. -/
theorem traj_smooth_ends_st_preserves_traj (s0 : NpState)
    (start_time end_time : ℚ) (index_rows : List Bool) :
    (traj_smooth_ends_st s0 start_time end_time index_rows).traj = s0.traj ∧
    (traj_smooth_ends_st s0 start_time end_time index_rows).cur =
      traj_smooth_ends s0.traj start_time end_time index_rows := by
  unfold traj_smooth_ends_st traj_smooth_ends np_mask_select writeRow readArr
  by_cases h1 : trueCount index_rows = 1 <;> simp [h1]

/-- Midpoint-hour day/night split, translation of `day_night_split`
(gps_util.py lines 278-314).  The forest conversion `stamp2datetime` is the
parameter `s2dt`, mapping a timestamp to the broken-down local time list
`[year, month, day, hour, minute, second]` of the given timezone; the source
reads index 3 (the hour) of the conversion of the midpoint `(t0 + t1) / 2`
of each row. -/
def day_night_split (s2dt : ℚ → List ℤ) (current_traj : List TrajRow) :
    List Bool × List Bool :=
  let hours := current_traj.map (fun r => (s2dt ((r.t0 + r.t1) / 2)).getD 3 0)
  let day_index := hours.map (fun h => decide (8 ≤ h) && decide (h ≤ 19))
  let night_index := day_index.map (fun b => !b)
  (day_index, night_index)

/-- Claim C5: `day_night_split` returns two boolean arrays of the same
length as the sub-trajectory that partition its rows: `night_index` is the
pointwise negation of `day_index`, and a row is in `day_index` exactly when
the hour component of its midpoint timestamp, converted in the given
timezone, lies between 8 and 19 inclusive. -/
theorem day_night_split_spec (s2dt : ℚ → List ℤ) (ct : List TrajRow)
    (i : ℕ) (hi : i < ct.length) :
    (day_night_split s2dt ct).1.length = ct.length ∧
    (day_night_split s2dt ct).2.length = ct.length ∧
    (day_night_split s2dt ct).2.getD i false = !((day_night_split s2dt ct).1.getD i false) ∧
    ((day_night_split s2dt ct).1.getD i false = true ↔
      (8 ≤ (s2dt (((nthRow ct i).t0 + (nthRow ct i).t1) / 2)).getD 3 0 ∧
        (s2dt (((nthRow ct i).t0 + (nthRow ct i).t1) / 2)).getD 3 0 ≤ 19)) := by
  have getD_map_bool : ∀ (g : TrajRow → Bool) (l : List TrajRow) (j : ℕ),
      j < l.length → (l.map g).getD j false = g (nthRow l j) := by
    intro g l
    induction l with
    | nil => intro j hj; simp at hj
    | cons a t ih =>
      intro j hj
      cases j with
      | zero => rfl
      | succ k =>
        simp only [List.length_cons, Nat.succ_lt_succ_iff] at hj
        simpa [nthRow] using ih k hj
  refine ⟨by simp [day_night_split], by simp [day_night_split], ?_, ?_⟩
  · simp only [day_night_split, List.map_map]
    rw [getD_map_bool _ ct i hi, getD_map_bool _ ct i hi]
    simp
  · simp only [day_night_split, List.map_map]
    rw [getD_map_bool _ ct i hi]
    simp

/-- Witness for claim C5 at a one-row trajectory whose midpoint converts to
hour 9 under a concrete stand-in conversion. -/
theorem day_night_split_spec_witness :
    (0 : ℕ) < ([⟨0, 0, 0, 32400, 0, 0, 36000, 1⟩] : List TrajRow).length ∧
    (day_night_split (fun _ => [1970, 1, 1, 9, 0, 0])
      [⟨0, 0, 0, 32400, 0, 0, 36000, 1⟩]).1.getD 0 false = true :=
  ⟨by decide,
    ((day_night_split_spec (fun _ => [1970, 1, 1, 9, 0, 0])
      [⟨0, 0, 0, 32400, 0, 0, 36000, 1⟩] 0 (by decide)).2.2.2).mpr (by decide)⟩

/-- Python `int(q)`: truncation toward zero (the numerator of the reduced
fraction divided by the denominator with truncating division). -/
def pyInt (q : ℚ) : ℤ := Int.tdiv q.num (q.den : ℤ)

/-- Rows of the GPS dataframe whose timestamp falls in the hour bucket
`[start_time + hour * 3600, start_time + (hour + 1) * 3600)`
(gps_util.py lines 44-47). -/
def hourBucket (data : List ℚ) (start_time : ℚ) (hour : ℕ) : List ℚ :=
  data.filter (fun t =>
    decide (start_time + (hour : ℚ) * 3600 ≤ t) &&
    decide (t < start_time + ((hour : ℚ) + 1) * 3600))

/-- Translation of `gps_quality` (gps_util.py lines 16-52): the GPS
dataframe is its timestamp column, a list of rational timestamps in row
order.  The source reads `iloc[0]` and `iloc[-1]`; on an empty dataframe it
would raise `IndexError`, so the theorem below assumes at least one row.
The function only filters the data and never assigns to it, so it is a pure
function of the timestamp column. -/
def gps_quality (data : List ℚ) : Except String Unit :=
  let end_time := data.getLast?.getD 0
  let start_time := data.head?.getD 0
  let num_hours : ℤ := pyInt ((end_time - start_time) / 3600) + 1
  let quality_check : ℕ :=
    (List.range num_hours.toNat).foldl (fun acc hour =>
      if 60 < (hourBucket data start_time hour).length then acc + 1 else acc) 0
  if (quality_check : ℚ) < (1 / 2) * (num_hours : ℚ) then
    Except.error "Data does not have enough observations per hour."
  else Except.ok ()

/-- Value of `num_hours` in `gps_quality`: `int((end - start) / 3600) + 1`. -/
def numHours (data : List ℚ) : ℤ :=
  pyInt ((data.getLast?.getD 0 - data.head?.getD 0) / 3600) + 1

/-- Number of hour buckets of the data that contain more than 60
observations. -/
def qualifiedHours (data : List ℚ) : ℕ :=
  (List.range (numHours data).toNat).countP
    (fun hour => decide (60 < (hourBucket data (data.head?.getD 0) hour).length))

lemma foldl_count_ite {p : ℕ → Prop} [DecidablePred p] (l : List ℕ) (n : ℕ) :
    l.foldl (fun acc x => if p x then acc + 1 else acc) n =
      n + l.countP (fun x => decide (p x)) := by
  induction l generalizing n with
  | nil => simp
  | cons a t ih =>
    by_cases h : p a <;> simp [List.countP_cons, h, ih] <;> omega

/-- Claim C3: for every GPS dataframe with at least one row, `gps_quality`
raises `ValueError` if and only if the number of hour buckets
`[start + h * 3600, start + (h + 1) * 3600)` for `h` below
`num_hours = int((end - start) / 3600) + 1` holding more than 60
observations is less than `0.5 * num_hours`, and otherwise it returns
normally; it never writes to the dataframe (the embedding is a pure
function of the timestamp column). -/
theorem gps_quality_spec (data : List ℚ) (hne : data ≠ []) :
    (gps_quality data = Except.error "Data does not have enough observations per hour." ↔
      ((qualifiedHours data : ℚ) < (1 / 2) * (numHours data : ℚ))) ∧
    (gps_quality data = Except.ok () ↔
      ¬ ((qualifiedHours data : ℚ) < (1 / 2) * (numHours data : ℚ))) := by
  have hq : (List.range (numHours data).toNat).foldl (fun acc hour =>
      if 60 < (hourBucket data (data.head?.getD 0) hour).length then acc + 1 else acc) 0 =
      qualifiedHours data := by
    rw [foldl_count_ite]
    simp [qualifiedHours]
  have key : gps_quality data =
      if ((qualifiedHours data : ℚ) < (1 / 2) * (numHours data : ℚ)) then
        Except.error "Data does not have enough observations per hour."
      else Except.ok () := by
    simp only [gps_quality]
    rw [show (pyInt ((data.getLast?.getD 0 - data.head?.getD 0) / 3600) + 1) =
      numHours data from rfl, hq]
  rw [key]
  by_cases hlt : ((qualifiedHours data : ℚ) < (1 / 2) * (numHours data : ℚ)) <;>
    simp [hlt]

/-- Witness for claim C3 at the one-row dataframe `[0]`: there is one hour
bucket, it holds a single observation, so the quality check fails and the
function raises. -/
theorem gps_quality_spec_witness :
    ([(0 : ℚ)] ≠ []) ∧
    gps_quality [(0 : ℚ)] =
      Except.error "Data does not have enough observations per hour." :=
  ⟨by decide, (gps_quality_spec [(0 : ℚ)] (by decide)).1.mpr (by
    have h1 : numHours [(0 : ℚ)] = 1 := by norm_num [numHours, pyInt]
    have h2 : qualifiedHours [(0 : ℚ)] = 0 := by
      unfold qualifiedHours
      rw [h1]
      norm_num [hourBucket, List.countP_cons]
    rw [h2, h1]
    norm_num)⟩

/-- Row of the daily statistics dataframe produced by the daily pass of
`gps_stats`, columns `[year, month, day, observed_time, observed_time_day,
observed_time_night, dist_travelled, home_time, home_max_dist]`. -/
structure DailyRow where
  year : ℤ
  month : ℤ
  day : ℤ
  observed_time : ℚ
  observed_time_day : ℚ
  observed_time_night : ℚ
  dist_travelled : ℚ
  home_time : ℚ
  home_max_dist : ℚ
deriving DecidableEq, Repr

/-- Arithmetic mean as `np.mean` computes it (sum over length). -/
def np_mean (xs : List ℚ) : ℚ := xs.sum / xs.length

/-- Population variance, the mean of the squared deviations from the mean
(`ddof = 0`, as `np.std` uses). -/
def np_var (xs : List ℚ) : ℚ := np_mean (xs.map (fun x => (x - np_mean xs) ^ 2))

/-- Population standard deviation `np.std`: the square root of `np_var`.
The square root of a rational is irrational in general, so it is supplied
as the parameter `sqrtFn`; every claim about `summary_stats` is independent
of its value. -/
def np_std (sqrtFn : ℚ → ℚ) (xs : List ℚ) : ℚ := sqrtFn (np_var xs)

/-- Translation of `summary_stats` (gps_util.py lines 317-373).  The summary
dataframe is a map from row index to row; `summary.loc[0] = [...]` writes
row 0 and leaves every other row unchanged.  On an empty daily dataframe
`np.mean`/`np.std` produce the float NaN, which `ℚ` cannot represent, so the
theorem below assumes at least one daily row. -/
def summary_stats (sqrtFn : ℚ → ℚ) (daily : List DailyRow)
    (summary : ℕ → Option (List ℚ)) : ℕ → Option (List ℚ) :=
  let no_days : ℚ := daily.length
  let total_observed_time := (daily.map DailyRow.observed_time).sum
  let mean_dist_travelled := np_mean (daily.map DailyRow.dist_travelled)
  let sd_dist_travelled := np_std sqrtFn (daily.map DailyRow.dist_travelled)
  let mean_home_time := np_mean (daily.map DailyRow.home_time)
  let sd_home_time := np_std sqrtFn (daily.map DailyRow.home_time)
  let mean_home_max_dist := np_mean (daily.map DailyRow.home_max_dist)
  let sd_home_max_dist := np_std sqrtFn (daily.map DailyRow.home_max_dist)
  fun i =>
    if i = 0 then
      some [no_days, total_observed_time, mean_dist_travelled, sd_dist_travelled,
        mean_home_time, sd_home_time, mean_home_max_dist, sd_home_max_dist]
    else summary i

/-- Claim C6: for every daily-statistics dataframe (with at least one row,
so that the rational model of `np.mean`/`np.std` is exact), `summary_stats`
fills exactly one row, index 0, of the summary dataframe with, in order, the
number of daily rows, the sum of `observed_time`, and the mean and standard
deviation of `dist_travelled`, `home_time` and `home_max_dist`; every other
row of the summary dataframe is returned unchanged. -/
theorem summary_stats_spec (sqrtFn : ℚ → ℚ) (daily : List DailyRow)
    (summary : ℕ → Option (List ℚ)) (hne : daily ≠ []) :
    summary_stats sqrtFn daily summary 0 =
      some [(daily.length : ℚ), (daily.map DailyRow.observed_time).sum,
        np_mean (daily.map DailyRow.dist_travelled),
        np_std sqrtFn (daily.map DailyRow.dist_travelled),
        np_mean (daily.map DailyRow.home_time),
        np_std sqrtFn (daily.map DailyRow.home_time),
        np_mean (daily.map DailyRow.home_max_dist),
        np_std sqrtFn (daily.map DailyRow.home_max_dist)] ∧
    ∀ i, i ≠ 0 → summary_stats sqrtFn daily summary i = summary i := by
  refine ⟨by simp [summary_stats], ?_⟩
  intro i hi
  simp [summary_stats, hi]

/-- Witness for claim C6 at a one-row daily dataframe and the identity in
place of the square root. -/
theorem summary_stats_spec_witness :
    ([⟨2020, 1, 1, 10, 5, 5, 100, 50, 200⟩] : List DailyRow) ≠ [] ∧
    summary_stats (fun q => q) [⟨2020, 1, 1, 10, 5, 5, 100, 50, 200⟩]
      (fun _ => none) 1 = none :=
  ⟨by decide,
    (summary_stats_spec (fun q => q) [⟨2020, 1, 1, 10, 5, 5, 100, 50, 200⟩]
      (fun _ => none) (by decide)).2 1 (by decide)⟩

/-- Python slice assignment `l[i:j] = v` for an index range inside the
list. -/
def setSlice (l : List ℤ) (i j : ℕ) (v : List ℤ) : List ℤ :=
  l.take i ++ v ++ l.drop j

/-- Raising for-loop: runs `step` on consecutive items, propagating the
first raised exception, as the `for i in range(no_windows)` loop of
`gps_stats` does. -/
def foldE {α : Type} (step : α → ℕ → Except String α) : α → List ℕ → Except String α
  | d, [] => Except.ok d
  | d, i :: rest =>
    match step d i with
    | Except.ok d2 => foldE step d2 rest
    | Except.error e => Except.error e

/-- One iteration of the window loop of `gps_stats` (gps_util.py lines
134-217), translated as far as the source can run.  In a window overlapping
no segment the source evaluates `df.append(...)` — whose result it never
assigns, so `df` is unchanged (line 146) — and continues.  In a window
overlapping at least one segment it smooths the sub-trajectory, computes
the observed durations, and then evaluates
`great_circle_dist(...)` (line 173): that name is never imported in
gps_util.py (only `locate_home`, `datetime2stamp` and `stamp2datetime`
are), so the interpreter raises `NameError` there.  `α` is the type of the
statistics dataframe and `dfAppend` its (discarded) `append`. -/
def gps_stats_window {α : Type} (s2dt : ℚ → List ℤ) (dfAppend : α → List (Option ℚ) → α)
    (ncols : ℕ) (traj : List TrajRow) (frequency : String) (start_stamp window : ℤ)
    (df : α) (i : ℕ) : Except String α :=
  let start_time : ℤ := start_stamp + (i : ℤ) * window
  let end_time : ℤ := start_stamp + ((i : ℤ) + 1) * window
  let current_time_list := s2dt (start_time : ℚ)
  let index_rows := traj.map (fun r =>
    decide (r.t0 < (end_time : ℚ)) && decide ((start_time : ℚ) < r.t1))
  if trueCount index_rows = 0 then
    let res := (current_time_list.take 4).map (fun z => some (z : ℚ)) ++
      List.replicate (ncols - 4) (none : Option ℚ)
    let _ := dfAppend df res
    Except.ok df
  else
    let current_traj := traj_smooth_ends traj (start_time : ℚ) (end_time : ℚ) index_rows
    let _obs_dur := ((current_traj.filter (fun r => decide (r.obs = 1))).map
      (fun r => r.t1 - r.t0)).sum
    let _day_night := if frequency = "daily" then some (day_night_split s2dt current_traj)
      else none
    Except.error "NameError: name great_circle_dist is not defined"

/-- Translation of `gps_stats` (gps_util.py lines 89-219).  The forest
conversions are the parameters `s2dt` (`stamp2datetime`, timestamp to
`[year, month, day, hour, minute, second]` in the timezone) and `dt2s`
(`datetime2stamp`, back to an integer timestamp); `locate_home` is the
forest home-location estimate.  The statistics dataframe is the abstract
type `α` with its `append` operation `dfAppend` and `ncols` columns. -/
def gps_stats {α : Type} (s2dt : ℚ → List ℤ) (dt2s : List ℤ → ℤ)
    (locate_home : List TrajRow → ℚ × ℚ) (dfAppend : α → List (Option ℚ) → α)
    (ncols : ℕ) (traj : List TrajRow) (df : α) (frequency : String) :
    Except String α :=
  let obs_traj := traj.filter (fun r => decide (r.obs = 1))
  let _home_coords := locate_home obs_traj
  let start_time_list := s2dt (nthRow traj 0).t0
  let end_time_list := s2dt (nthRow traj (traj.length - 1)).t1
  let start_time_list := if frequency = "hourly" then setSlice start_time_list 4 6 [0, 0]
    else setSlice start_time_list 3 6 [0, 0, 0]
  let end_time_list := if frequency = "hourly" then setSlice end_time_list 4 6 [0, 0]
    else setSlice end_time_list 3 6 [0, 0, 0]
  let start_stamp := dt2s start_time_list
  let end_stamp := dt2s end_time_list
  let window : ℤ := if frequency = "daily" then 3600 * 24 else 3600
  let no_windows := Int.fdiv (end_stamp - start_stamp) window
  foldE (gps_stats_window s2dt dfAppend ncols traj frequency start_stamp window)
    df (List.range no_windows.toNat)

/-- Claim C1 (code bug): at a trajectory of one observed segment spanning
two hourly windows — with concrete stand-ins for the timezone conversions
under which the span starts at stamp 0 and ends at stamp 7200 — `gps_stats`
does not return a dataframe with one row per window: the first window
overlaps the segment and the run raises `NameError`, because
`great_circle_dist` is used at line 173 but never imported; windows without
overlap would not add rows either, since the `df.append` result is
discarded.  The dataframe is instantiated as a row count with `append`
incrementing it, and it never gets past 0. -/
theorem gps_stats_raises_name_error :
    gps_stats (fun t => if t = 0 then [1970, 1, 1, 0, 0, 0] else [1970, 1, 1, 2, 0, 0])
      (fun l => 3600 * l.getD 3 0) (fun _ => (0, 0)) (fun (d : ℕ) _ => d + 1) 8
      [⟨1, 0, 0, 0, 1, 1, 7200, 1⟩] 0 "hourly" =
      Except.error "NameError: name great_circle_dist is not defined" := rfl

/-- Variant of the window loop iteration in which `great_circle_dist` is
supplied as the parameter `gcd`, as if the missing import were present (the
spec's distance aggregation requires it).  Execution then gets past the
distance-travelled computation (lines 172-182, with `np.round` as
half-to-even rounding) and reaches lines 185-186, which compute the home
distances from `temp[:, 1]`, `temp[:, 2]`, `temp[:, 4]`, `temp[:, 5]` — but
no variable named `temp` exists anywhere in gps_util.py (the sub-trajectory
is named `current_traj`), so the interpreter raises `NameError` there and
the home-time and max-distance-from-home statistics of the claim are never
computed. -/
def gps_stats_window_gcd {α : Type} (s2dt : ℚ → List ℤ)
    (gcd : ℚ → ℚ → ℚ → ℚ → ℚ) (npRound : ℚ → ℚ)
    (dfAppend : α → List (Option ℚ) → α) (ncols : ℕ) (traj : List TrajRow)
    (frequency : String) (start_stamp window : ℤ) (df : α) (i : ℕ) :
    Except String α :=
  let start_time : ℤ := start_stamp + (i : ℤ) * window
  let end_time : ℤ := start_stamp + ((i : ℤ) + 1) * window
  let current_time_list := s2dt (start_time : ℚ)
  let index_rows := traj.map (fun r =>
    decide (r.t0 < (end_time : ℚ)) && decide ((start_time : ℚ) < r.t1))
  if trueCount index_rows = 0 then
    let res := (current_time_list.take 4).map (fun z => some (z : ℚ)) ++
      List.replicate (ncols - 4) (none : Option ℚ)
    let _ := dfAppend df res
    Except.ok df
  else
    let current_traj := traj_smooth_ends traj (start_time : ℚ) (end_time : ℚ) index_rows
    let _obs_dur := ((current_traj.filter (fun r => decide (r.obs = 1))).map
      (fun r => r.t1 - r.t0)).sum
    let _day_night := if frequency = "daily" then some (day_night_split s2dt current_traj)
      else none
    let mov_vec := current_traj.map (fun r => npRound (gcd r.x1 r.y1 r.x0 r.y0))
    let _dist_traveled := mov_vec.sum
    Except.error "NameError: name temp is not defined"

/-- `gps_stats` with `great_circle_dist` supplied, wired to
`gps_stats_window_gcd`. -/
def gps_stats_gcd {α : Type} (s2dt : ℚ → List ℤ) (dt2s : List ℤ → ℤ)
    (locate_home : List TrajRow → ℚ × ℚ) (gcd : ℚ → ℚ → ℚ → ℚ → ℚ)
    (npRound : ℚ → ℚ) (dfAppend : α → List (Option ℚ) → α) (ncols : ℕ)
    (traj : List TrajRow) (df : α) (frequency : String) : Except String α :=
  let obs_traj := traj.filter (fun r => decide (r.obs = 1))
  let _home_coords := locate_home obs_traj
  let start_time_list := s2dt (nthRow traj 0).t0
  let end_time_list := s2dt (nthRow traj (traj.length - 1)).t1
  let start_time_list := if frequency = "hourly" then setSlice start_time_list 4 6 [0, 0]
    else setSlice start_time_list 3 6 [0, 0, 0]
  let end_time_list := if frequency = "hourly" then setSlice end_time_list 4 6 [0, 0]
    else setSlice end_time_list 3 6 [0, 0, 0]
  let start_stamp := dt2s start_time_list
  let end_stamp := dt2s end_time_list
  let window : ℤ := if frequency = "daily" then 3600 * 24 else 3600
  let no_windows := Int.fdiv (end_stamp - start_stamp) window
  foldE (gps_stats_window_gcd s2dt gcd npRound dfAppend ncols traj frequency
    start_stamp window) df (List.range no_windows.toNat)

/-- Claim C4 (code bug): on any window overlapping a segment, the home-time
and max-distance-from-home pass of `gps_stats` is never computed from the
smoothed sub-trajectory: even with the missing `great_circle_dist` import
repaired, lines 185-186 read the undefined name `temp` instead of
`current_traj` and the run raises `NameError` before `time_at_home` and
`max_dist_home` exist. -/
theorem gps_stats_home_distance_name_error :
    gps_stats_gcd (fun t => if t = 0 then [1970, 1, 1, 0, 0, 0] else [1970, 1, 1, 2, 0, 0])
      (fun l => 3600 * l.getD 3 0) (fun _ => (0, 0)) (fun _ _ _ _ => 0) (fun q => q)
      (fun (d : ℕ) _ => d + 1) 8 [⟨1, 0, 0, 0, 1, 1, 7200, 1⟩] 0 "hourly" =
      Except.error "NameError: name temp is not defined" := rfl

/-- Keys of the `input_param` dictionary that the diarization dispatch and
worker read: `parallel_processing` selects the branch in
`call_diarization_hf`, `quantized` selects the model in `process_chunk_hf`. -/
structure HFParam where
  parallel_processing : ℤ
  quantized : Bool
deriving DecidableEq, Repr

/-- Python values that appear in the argument tuples built by
`call_diarization_hf`. -/
inductive PyVal where
  | int : ℤ → PyVal
  | str : String → PyVal
  | dict : HFParam → PyVal
deriving DecidableEq, Repr

/-- Python tuple unpacking `idx, prompt, input_param = args`: succeeds on a
3-tuple and raises `ValueError` otherwise. -/
def unpack3 (args : List PyVal) : Except String (PyVal × PyVal × PyVal) :=
  match args with
  | [a, b, c] => Except.ok (a, b, c)
  | _ =>
    if 3 < args.length then
      Except.error "ValueError: too many values to unpack (expected 3)"
    else
      Except.error "ValueError: not enough values to unpack"

/-- Modelled from the spec: `exponential_backoff_decorator` from
`diarization_utils` (not under src/) retries a failing call up to
`max_retries` times with exponentially growing delays and re-raises the
final failure; the delays have no observable effect in this embedding, so
on a deterministic callee the wrapper returns the callee's outcome. -/
def retryCall {β : Type} : ℕ → (Unit → Except String β) → Except String β
  | 0, f => f ()
  | n + 1, f =>
    match f () with
    | Except.ok b => Except.ok b
    | Except.error _ => retryCall n f

/-- Translation of `process_chunk_hf` (diarization_hf_utils.py lines 14-67),
wrapped in the retry decorator with `max_retries = 3`.  The body first
unpacks its argument tuple into `idx, prompt, input_param`; on success the
external HuggingFace pipeline (tokenizer, model generation and decoding,
lines 38-65) is the parameter `infer`, applied to the prompt and the
`quantized` flag, and the function returns the pair `(idx, result)`. -/
def process_chunk_hf (infer : String → Bool → Except String String)
    (args : List PyVal) : Except String (ℤ × String) :=
  retryCall 3 (fun _ =>
    match unpack3 args with
    | Except.error e => Except.error e
    | Except.ok (a, b, c) =>
      match a, b, c with
      | PyVal.int idx, PyVal.str prompt, PyVal.dict input_param =>
        match infer prompt input_param.quantized with
        | Except.ok result => Except.ok (idx, result)
        | Except.error e => Except.error e
      | _, _, _ => Except.error "TypeError: unsupported argument tuple")

/-- Insert a key into a sorted key list (helper for `sorted(...)`). -/
def insertSorted (x : ℤ) : List ℤ → List ℤ
  | [] => [x]
  | y :: ys => if x ≤ y then x :: y :: ys else y :: insertSorted x ys

/-- Python `sorted(prompts.keys())` by insertion sort. -/
def sortKeys (l : List ℤ) : List ℤ := l.foldr insertSorted []

/-- Python `prompts[idx]` on the association-list model of the prompts
dictionary. -/
def dictGet (prompts : List (ℤ × String)) (k : ℤ) : String :=
  ((prompts.find? (fun p => decide (p.1 = k))).map Prod.snd).getD ""

/-- Translation of `call_diarization_hf` (diarization_hf_utils.py lines
70-105).  A dictionary with integer keys is an association list in
insertion order.  With `parallel_processing == 1` the source builds one
argument tuple `(idx, prompts[idx], input_param, endpoint_name)` per sorted
key, creates `Pool(processes=len(prompts))` — which raises `ValueError`
when `len(prompts)` is 0, since `multiprocessing.Pool` requires at least
one process — and `pool.map`s the retry-wrapped worker over the tuples,
re-raising a worker's exception; `dict(results)` is the resulting pair
list.  Otherwise it loops over the same sorted keys, calling the worker on
the same tuple and storing index 1 of the returned pair.  The per-chunk
work is deterministic in this embedding (the spec's workers share no state),
so exception propagation follows the chunk order in both branches. -/
def call_diarization_hf (infer : String → Bool → Except String String)
    (prompts : List (ℤ × String)) (endpoint_name : String)
    (input_param : HFParam) : Except String (List (ℤ × String)) :=
  let keys := sortKeys (prompts.map Prod.fst)
  if input_param.parallel_processing = 1 then
    if prompts.length < 1 then
      Except.error "ValueError: Number of processes must be at least 1"
    else
      (keys.map (fun idx =>
        [PyVal.int idx, PyVal.str (dictGet prompts idx), PyVal.dict input_param,
          PyVal.str endpoint_name])).mapM (process_chunk_hf infer)
  else
    keys.mapM (fun idx =>
      match process_chunk_hf infer
        [PyVal.int idx, PyVal.str (dictGet prompts idx), PyVal.dict input_param,
          PyVal.str endpoint_name] with
      | Except.ok r => Except.ok (idx, r.2)
      | Except.error e => Except.error e)

/-- Claim C7, counterexample: on the empty prompts dictionary the parallel
branch raises `ValueError` while building `Pool(processes=0)`, but the
sequential branch returns the empty dictionary, so the two branches do not
return the same dictionary for every prompts dictionary. -/
theorem call_diarization_hf_empty_prompts_differs :
    call_diarization_hf (fun _ _ => Except.ok "") [] "ep" ⟨1, false⟩ ≠
      call_diarization_hf (fun _ _ => Except.ok "") [] "ep" ⟨0, false⟩ := by
  have h1 : call_diarization_hf (fun _ _ => Except.ok "") [] "ep" ⟨1, false⟩ =
      Except.error "ValueError: Number of processes must be at least 1" := rfl
  have h2 : call_diarization_hf (fun _ _ => Except.ok "") [] "ep" ⟨0, false⟩ =
      Except.ok [] := rfl
  rw [h1, h2]
  exact fun h => Except.noConfusion h

lemma process_chunk_hf_four_tuple (infer : String → Bool → Except String String)
    (a b c d : PyVal) :
    process_chunk_hf infer [a, b, c, d] =
      Except.error "ValueError: too many values to unpack (expected 3)" := rfl

lemma sortKeys_ne_nil (l : List ℤ) (h : l ≠ []) : sortKeys l ≠ [] := by
  cases l with
  | nil => exact absurd rfl h
  | cons x xs =>
    show List.foldr insertSorted [] (x :: xs) ≠ []
    simp only [List.foldr]
    cases List.foldr insertSorted [] xs with
    | nil => simp [insertSorted]
    | cons y ys =>
      simp only [insertSorted]
      split <;> simp

/-- Claim C7, amended: for every non-empty prompts dictionary,
`call_diarization_hf` produces the same outcome with
`parallel_processing == 1` as with any other value: both branches apply the
retry-wrapped `process_chunk_hf` to the same argument tuples over the same
sorted keys and propagate identical results.  (With the tuples the source
builds, every chunk's unpacking raises, and both branches re-raise that
same error.) -/
theorem call_diarization_hf_parallel_eq_sequential
    (infer : String → Bool → Except String String)
    (prompts : List (ℤ × String)) (endpoint_name : String)
    (q : Bool) (pp : ℤ) (hne : prompts ≠ []) (hpp : pp ≠ 1) :
    call_diarization_hf infer prompts endpoint_name ⟨1, q⟩ =
      call_diarization_hf infer prompts endpoint_name ⟨pp, q⟩ := by
  have hkeys : sortKeys (prompts.map Prod.fst) ≠ [] := by
    apply sortKeys_ne_nil
    simp [hne]
  have hlen : ¬ prompts.length < 1 := by
    cases prompts with
    | nil => exact absurd rfl hne
    | cons p ps => simp
  obtain ⟨k, ks, hk⟩ := List.exists_cons_of_ne_nil hkeys
  simp only [call_diarization_hf, if_pos rfl, if_neg hpp, if_neg hlen, hk,
    List.map_cons, List.mapM_cons, process_chunk_hf_four_tuple]
  rfl

/-- Witness for the amended claim C7 at a one-chunk prompts dictionary,
comparing `parallel_processing = 1` with `parallel_processing = 0`. -/
theorem call_diarization_hf_parallel_eq_sequential_witness :
    ([((0 : ℤ), "hi")] : List (ℤ × String)) ≠ [] ∧ (0 : ℤ) ≠ 1 ∧
    call_diarization_hf (fun _ _ => Except.ok "out") [((0 : ℤ), "hi")] "ep" ⟨1, false⟩ =
      call_diarization_hf (fun _ _ => Except.ok "out") [((0 : ℤ), "hi")] "ep" ⟨0, false⟩ :=
  ⟨by decide, by decide,
    call_diarization_hf_parallel_eq_sequential (fun _ _ => Except.ok "out")
      [((0 : ℤ), "hi")] "ep" false 0 (by decide) (by decide)⟩

/-- Claim C10 (code bug): the argument tuples that `call_diarization_hf`
passes to `process_chunk_hf` (lines 98 and 103) have four elements —
`(idx, prompts[idx], input_param, endpoint_name)` — but the destructuring
`idx, prompt, input_param = args` at the top of `process_chunk_hf` (line
36, and its docstring) expects three, so unpacking raises `ValueError` for
every chunk; here evaluated end to end on the sequential branch with the
one-chunk dictionary `{0: "hello"}`. -/
theorem call_diarization_hf_unpack_fails :
    call_diarization_hf (fun _ _ => Except.ok "out") [((0 : ℤ), "hello")] "ep" ⟨0, false⟩ =
      Except.error "ValueError: too many values to unpack (expected 3)" := rfl

/-- Keyword arguments accepted by `speech_transcription_cloud`, each either
provided or absent (`kwargs.get` supplies the default), with the types its
docstring declares. -/
structure TKwargs where
  model : Option String := none
  language : Option String := none
  region : Option String := none
  job_name : Option String := none
  ShowSpeakerLabels : Option Bool := none
  MaxSpeakerLabels : Option ℤ := none
  c_scale : Option String := none
  access_key : Option String := none
  secret_key : Option String := none
deriving DecidableEq, Repr

/-- The `input_param` dictionary built by `read_kwargs`. -/
structure TInputParam where
  model : String
  language : String
  region : String
  job_name : String
  ShowSpeakerLabels : Bool
  MaxSpeakerLabels : ℤ
  c_scale : String
  access_key : String
  secret_key : String
deriving DecidableEq, Repr

/-- Translation of `read_kwargs` (speech_transcribe_cloud.py lines 38-67):
each parameter is `kwargs.get(key, default)` with the defaults of the
source. -/
def read_kwargs (kwargs : TKwargs) : TInputParam :=
  { model := kwargs.model.getD "pyannote"
    language := kwargs.language.getD "en-US"
    region := kwargs.region.getD "us-east-1"
    job_name := kwargs.job_name.getD "transcribe_job_01"
    ShowSpeakerLabels := kwargs.ShowSpeakerLabels.getD true
    MaxSpeakerLabels := kwargs.MaxSpeakerLabels.getD 2
    c_scale := kwargs.c_scale.getD ""
    access_key := kwargs.access_key.getD ""
    secret_key := kwargs.secret_key.getD "" }

/-- Translation of `speech_transcription_cloud` (speech_transcribe_cloud.py
lines 69-117).  The transcription service call `tutil.transcribe_audio`,
the helpers `tutil.extract_content` and `tutil.get_clinical_labels`, and
the loaded configuration `measures` live in `transcribe_util`/config files
outside this module and are parameters, over arbitrary types `J` (the JSON
response), `M` (the configuration) and `C` (the extracted content).  The
condition of line 113 is `ShowSpeakerLabels == True and c_scale` — for the
string-typed `c_scale` of the docstring, truthiness is being non-empty. -/
def speech_transcription_cloud {J M C : Type}
    (transcribe_audio : String → TInputParam → J × String)
    (get_config : M) (extract_content : J → C)
    (get_clinical_labels : String → M → C → J → J)
    (filepath : String) (kwargs : TKwargs) : J × String :=
  let input_param := read_kwargs kwargs
  let measures := get_config
  let jr := transcribe_audio filepath input_param
  let json_response := jr.1
  let transcript := jr.2
  if input_param.ShowSpeakerLabels = true ∧ input_param.c_scale ≠ "" then
    let content_dict := extract_content json_response
    (get_clinical_labels input_param.c_scale measures content_dict json_response,
      transcript)
  else
    (json_response, transcript)

/-- Claim C8: for every filepath and keyword arguments,
`speech_transcription_cloud` returns the pair produced by
`transcribe_audio`: the transcript always unchanged, and the JSON response
replaced by the clinical-label reshaping exactly when the effective
`ShowSpeakerLabels` is `True` and the effective `c_scale` is a non-empty
string; in every other case the JSON response is returned unchanged. -/
theorem speech_transcription_cloud_spec {J M C : Type}
    (transcribe_audio : String → TInputParam → J × String)
    (get_config : M) (extract_content : J → C)
    (get_clinical_labels : String → M → C → J → J)
    (filepath : String) (kwargs : TKwargs) :
    (speech_transcription_cloud transcribe_audio get_config extract_content
        get_clinical_labels filepath kwargs).2 =
      (transcribe_audio filepath (read_kwargs kwargs)).2 ∧
    ((read_kwargs kwargs).ShowSpeakerLabels = true ∧ (read_kwargs kwargs).c_scale ≠ "" →
      (speech_transcription_cloud transcribe_audio get_config extract_content
          get_clinical_labels filepath kwargs).1 =
        get_clinical_labels (read_kwargs kwargs).c_scale get_config
          (extract_content (transcribe_audio filepath (read_kwargs kwargs)).1)
          (transcribe_audio filepath (read_kwargs kwargs)).1) ∧
    (¬ ((read_kwargs kwargs).ShowSpeakerLabels = true ∧
        (read_kwargs kwargs).c_scale ≠ "") →
      (speech_transcription_cloud transcribe_audio get_config extract_content
          get_clinical_labels filepath kwargs).1 =
        (transcribe_audio filepath (read_kwargs kwargs)).1) := by
  by_cases h : (read_kwargs kwargs).ShowSpeakerLabels = true ∧
      (read_kwargs kwargs).c_scale ≠ "" <;>
    simp [speech_transcription_cloud, h]

/-- Witness for claim C8 at concrete kwargs that enable the reshaping
(`ShowSpeakerLabels` defaulted to `True`, `c_scale` provided non-empty),
with the external calls instantiated on `ℕ`-valued JSON. -/
theorem speech_transcription_cloud_spec_witness :
    ((read_kwargs { c_scale := some "madrs" }).ShowSpeakerLabels = true ∧
      (read_kwargs { c_scale := some "madrs" }).c_scale ≠ "") ∧
    (speech_transcription_cloud (fun _ _ => ((7 : ℕ), "words")) (0 : ℕ)
        (fun j => j + 1) (fun _ _ c j => c + j) "s3://file"
        { c_scale := some "madrs" }).1 =
      (fun _ _ c j => c + j) "madrs" (0 : ℕ)
        ((fun (j : ℕ) => j + 1) ((7 : ℕ), "words").1) ((7 : ℕ), "words").1 :=
  ⟨⟨by decide, by decide⟩,
    (speech_transcription_cloud_spec (fun _ _ => ((7 : ℕ), "words")) (0 : ℕ)
        (fun j => j + 1) (fun _ _ c j => c + j) "s3://file"
        { c_scale := some "madrs" }).2.1 ⟨by decide, by decide⟩⟩

end OpenWillis
